import Mathlib

/-!
# Verification of the omnissiah-unified-master scoring core

Shallow embedding of the two in-scope components of the repository:
`src/core/temporal_coherence.py` (the `TemporalCoherenceTracker`) and
`src/core/unified_orchestrator.py` (the `UnifiedOrchestrator`).

Modelling conventions:
* Python floats are embedded as exact rationals (`ℚ`); all thresholds and
  weights in the source are decimal literals, so the arithmetic transfers
  verbatim.
* `datetime.now()` is embedded as a monotone tick counter carried in the
  tracker state; nothing in the analysed logic ever reads wall-clock
  content beyond ordering.
* The two transcendental library calls of the source — `math.exp` (used
  only to produce the positive recency weights `exp(-0.1*k)` in
  `_calculate_consistency`) and `math.sqrt` (used only for the drift
  magnitude and the standard deviations in the anomaly detector) — are
  irrational-valued and therefore cannot be rational functions.  The
  embedding abstracts them as explicit function parameters `w : ℕ → ℚ`
  and `rsqrt : ℚ → ℚ`; every theorem quantifies over all instantiations
  satisfying the properties `math.exp` / `math.sqrt` actually have at the
  points where they are applied (e.g. `0 < w k`, `rsqrt 0 = 0`,
  `rsqrt (4/25) = 2/5`), so each theorem in particular covers the real
  functions.
* Python exceptions are embedded as `Option` results: a raising scorer is
  a `none` outcome, and the orchestrator's `try/except` blocks become
  `Option.getD` against the documented fallback values.
* Python dicts with a fixed key set are embedded as structures; the one
  dict subject to missing-key defaulting (`current_scores` in
  `analyze_temporal_coherence`) is embedded as an association list read
  through `lookupD`, mirroring `dict.get(key, 0.0)`.
-/

namespace Omnissiah

/-- Python `str.lower()` (ASCII fold; every lexicon word and marker in
the analysed code is ASCII).  Implemented by structural recursion over
the character list so that the kernel can evaluate it. -/
def pyToLower (s : String) : String := String.mk (s.data.map Char.toLower)

/-- Worker for `pySplit`: accumulate the current word (reversed) and cut
at whitespace runs, discarding empty pieces. -/
def pySplitGo : List Char → List Char → List String
  | [], acc => if acc = [] then [] else [String.mk acc.reverse]
  | c :: cs, acc =>
    if c.isWhitespace then
      if acc = [] then pySplitGo cs []
      else String.mk acc.reverse :: pySplitGo cs []
    else pySplitGo cs (c :: acc)

/-- Python `str.split()` with no separator: split on whitespace runs,
discarding empty pieces. -/
def pySplit (s : String) : List String := pySplitGo s.data []

/-- Python's `round` ties-to-even integer rounding (banker's rounding),
on exact rationals. -/
def pyRoundInt (q : ℚ) : ℤ :=
  let f : ℤ := q.floor
  let r : ℚ := q - (f : ℚ)
  if r < 1/2 then f
  else if 1/2 < r then f + 1
  else if f % 2 = 0 then f else f + 1

/-- Python's `round(x, 4)` on exact rationals. -/
def pyRound4 (q : ℚ) : ℚ := (pyRoundInt (q * 10000) : ℚ) / 10000

/-- Python's `round(x, 2)` on exact rationals. -/
def pyRound2 (q : ℚ) : ℚ := (pyRoundInt (q * 100) : ℚ) / 100

/-- `d.get(key, default)` on an association-list embedding of a Python
dict. -/
def lookupD (l : List (String × ℚ)) (key : String) (dflt : ℚ) : ℚ :=
  match l.find? (fun p => p.1 = key) with
  | some p => p.2
  | none   => dflt

end Omnissiah

namespace Omnissiah

/-! ## Data model of `temporal_coherence.py` -/

/-- `TemporalSnapshot` (temporal_coherence.py:17-29).  The `metadata`
dict is always passed empty by the in-scope callers and read by nothing;
it is omitted.  `timestamp` is the tracker's tick counter. -/
structure TemporalSnapshot where
  timestamp : ℕ
  text : String
  truthScore : ℚ
  factScore : ℚ
  lieScore : ℚ
  coherenceScore : ℚ
  lambdaValue : ℚ
  semanticSignature : List (String × ℚ)
  keyThemes : List String
deriving DecidableEq, Repr, Inhabited

/-- One entry of the `anomalous_changes` list
(temporal_coherence.py:361-421).  The human-readable `description`
f-string is presentation-only and omitted; `deviation` is present on the
truth/lambda anomalies and absent (`none`) on the theme anomalies, whose
theme lists are kept in `themes`. -/
structure Anomaly where
  kind : String
  severity : String
  deviation : Option ℚ
  themes : List String
deriving DecidableEq, Repr

/-- The `trend_analysis` dict: either a `{'status': ...}` sentinel or the
three per-metric trend records (temporal_coherence.py:423-450). -/
structure MetricTrend where
  direction : String
  magnitude : ℚ
  volatility : ℚ
deriving DecidableEq, Repr

inductive TrendInfo where
  | status (s : String)
  | trends (truth lambdaT coherence : MetricTrend)
deriving DecidableEq, Repr

/-- The `predictions` dict: a `{'status': ...}` sentinel or the filled
prediction record (temporal_coherence.py:452-490). -/
inductive Prediction where
  | status (s : String)
  | predicted (nextLambda : ℚ) (confidence : String)
      (trendDirection : String) (expectedChange : ℚ)
deriving DecidableEq, Repr

/-- `TemporalAnalysisResult` (temporal_coherence.py:31-44); the
`metadata` dict of bookkeeping strings is omitted. -/
structure TemporalAnalysisResult where
  currentSnapshot : TemporalSnapshot
  consistencyScore : ℚ
  driftMagnitude : ℚ
  driftDirection : String
  evolutionTrajectory : String
  stabilityIndex : ℚ
  anomalousChanges : List Anomaly
  trendAnalysis : TrendInfo
  predictions : Prediction
  recommendations : List String
deriving DecidableEq, Repr

/-- Mutable state of a `TemporalCoherenceTracker`
(temporal_coherence.py:59-64).  `clock` models `datetime.now()` as a
monotone tick; `themeEvolution` is the flattened (theme, timestamp)
occurrence log; `driftEvents` of the source is written by no code path
and omitted. -/
structure TrackerState where
  snapshots : List TemporalSnapshot
  maxHistory : ℕ
  themeEvolution : List (String × ℕ)
  stabilityHistory : List ℚ
  clock : ℕ
deriving DecidableEq, Repr

/-- A freshly constructed tracker (`__init__`, default `max_history=100`). -/
def TrackerState.fresh (maxHistory : ℕ := 100) : TrackerState :=
  { snapshots := [], maxHistory := maxHistory, themeEvolution := [],
    stabilityHistory := [], clock := 0 }

/-- The seven fixed dimension lexicons of `_extract_semantic_signature`
(temporal_coherence.py:195-203). -/
def signatureLexicons : List (String × List String) :=
  [ ("truth_density",     ["truth", "true", "veritas", "reality"]),
    ("love_density",      ["love", "affection", "care", "compassion"]),
    ("spiritual_density", ["spirit", "soul", "eternal", "divine"]),
    ("logical_density",   ["therefore", "because", "thus", "hence"]),
    ("emotional_density", ["feel", "emotion", "heart", "sentiment"]),
    ("conflict_density",  ["conflict", "oppose", "against", "versus"]),
    ("unity_density",     ["unity", "together", "harmony", "one"]) ]

/-- `_extract_semantic_signature` (temporal_coherence.py:186-205): lower,
split into words, and — unless the word list is empty, in which case the
function returns the empty dict — map each dimension to
(matching word count) / (total word count). -/
def extractSemanticSignature (text : String) : List (String × ℚ) :=
  let words := pySplit (pyToLower text)
  if words = [] then []
  else signatureLexicons.map fun p =>
    (p.1, ((words.filter (fun w => w ∈ p.2)).length : ℚ) / (words.length : ℚ))

/-- `collections.deque(maxlen=cap).append`: append at the back, evicting
from the front when the capacity is exceeded. -/
def boundedAppend (cap : ℕ) (l : List α) (s : α) : List α :=
  let l2 := l ++ [s]
  if cap < l2.length then l2.drop (l2.length - cap) else l2

/-- `record_snapshot` (temporal_coherence.py:66-101): build the snapshot,
append it to the bounded history, and log each theme occurrence. -/
def recordSnapshot (st : TrackerState) (text : String)
    (truthScore factScore lieScore coherenceScore lambdaValue : ℚ)
    (keyThemes : List String) : TemporalSnapshot × TrackerState :=
  let snapshot : TemporalSnapshot :=
    { timestamp := st.clock, text := text, truthScore := truthScore,
      factScore := factScore, lieScore := lieScore,
      coherenceScore := coherenceScore, lambdaValue := lambdaValue,
      semanticSignature := extractSemanticSignature text,
      keyThemes := keyThemes }
  ( snapshot,
    { st with
        snapshots := boundedAppend st.maxHistory st.snapshots snapshot,
        themeEvolution :=
          st.themeEvolution ++ keyThemes.map (fun t => (t, st.clock)),
        clock := st.clock + 1 } )

end Omnissiah

namespace Omnissiah

/-! ## Analysis phases of the tracker -/

/-- Python `l[-n:]` for `n > 0` (and `l[-0:] = l`). -/
def pySliceLast (n : ℕ) (l : List α) : List α :=
  if n = 0 then l else l.drop (l.length - n)

/-- `_compare_semantic_signatures` (temporal_coherence.py:528-541): mean
over the union of the two key sets of `1 - |v1 - v2|`, missing keys
read as 0; `1.0` when the union is empty. -/
def compareSemanticSignatures (sig1 sig2 : List (String × ℚ)) : ℚ :=
  let allKeys := (sig1.map Prod.fst ++ sig2.map Prod.fst).eraseDups
  if allKeys = [] then 1
  else
    let similarity := allKeys.foldl
      (fun acc k => acc + (1 - |lookupD sig1 k 0 - lookupD sig2 k 0|)) 0
    similarity / (allKeys.length : ℚ)

/-- The per-pair blended consistency value of `_calculate_consistency`
(temporal_coherence.py:217-238). -/
def combinedScore (current past : TemporalSnapshot) : ℚ :=
  (1 - |current.truthScore - past.truthScore|) * (25/100) +
  (1 - |current.factScore - past.factScore|) * (20/100) +
  (1 - |current.lieScore - past.lieScore|) * (20/100) +
  (1 - |current.coherenceScore - past.coherenceScore|) * (15/100) +
  compareSemanticSignatures current.semanticSignature past.semanticSignature
    * (20/100)

/-- The recency weighting of `_calculate_consistency`
(temporal_coherence.py:240-248): the i-th of n scores gets weight
`w (n - i - 1)` (source: `exp(-0.1 * (n - i - 1))`, abstracted as `w`);
the weighted mean, or `0.5` when the weights sum to 0 (in particular
when the score list is empty). -/
def weightedAverage (w : ℕ → ℚ) (scores : List ℚ) : ℚ :=
  let n := scores.length
  let weights := (List.range n).map fun i => w (n - i - 1)
  let weightedSum := (scores.zip weights).foldl (fun acc p => acc + p.1 * p.2) 0
  let weightSum := weights.foldl (· + ·) 0
  if 0 < weightSum then weightedSum / weightSum else 1/2

/-- `_calculate_consistency` (temporal_coherence.py:207-248): 1.0 on an
empty history, otherwise the recency-weighted mean of the pairwise
blends against every history entry except the last (the current
snapshot). -/
def calculateConsistency (w : ℕ → ℚ) (current : TemporalSnapshot)
    (history : List TemporalSnapshot) : ℚ :=
  if history = [] then 1
  else weightedAverage w (history.dropLast.map (combinedScore current))

/-- `_analyze_drift` (temporal_coherence.py:250-295).  `rsqrt` abstracts
`math.sqrt`.  Returns (magnitude, direction). -/
def analyzeDrift (rsqrt : ℚ → ℚ) (current : TemporalSnapshot)
    (history : List TemporalSnapshot) : ℚ × String :=
  if history.length < 2 then (0, "stable")
  else
    let baseline := history.headI
    let truthDrift := current.truthScore - baseline.truthScore
    let factDrift := current.factScore - baseline.factScore
    let lieDrift := current.lieScore - baseline.lieScore
    let lambdaDrift := current.lambdaValue - baseline.lambdaValue
    let semanticDrift := current.semanticSignature.foldl
      (fun acc p =>
        match baseline.semanticSignature.find? (fun q => q.1 = p.1) with
        | some q => acc + |p.2 - q.2|
        | none => acc) 0
    let driftMagnitude :=
      rsqrt (truthDrift ^ 2 + factDrift ^ 2 + lieDrift ^ 2 +
             lambdaDrift ^ 2 + semanticDrift ^ 2) / 5
    let direction :=
      if truthDrift > 2/10 ∧ lieDrift < -(1/10) then "toward_truth"
      else if truthDrift < -(2/10) ∧ lieDrift > 1/10 then "toward_deception"
      else if |truthDrift| < 1/10 ∧ |lieDrift| < 1/10 then "stable"
      else if lambdaDrift > 3/10 then "ascending"
      else if lambdaDrift < -(3/10) then "descending"
      else "oscillating"
    (driftMagnitude, direction)

/-- Head of a nonempty rational list (used for `min`/`max` folds). -/
def listMax (l : List ℚ) : ℚ :=
  match l with
  | [] => 0
  | h :: t => t.foldl max h

def listMin (l : List ℚ) : ℚ :=
  match l with
  | [] => 0
  | h :: t => t.foldl min h

/-- The ordinary-least-squares slope over `y` indexed by position, with
the source's zero-denominator guard returning 0
(temporal_coherence.py:306-317). -/
def olsSlope (y : List ℚ) : ℚ :=
  let n : ℚ := y.length
  let x := (List.range y.length).map fun i => (i : ℚ)
  let sumX := x.foldl (· + ·) 0
  let sumY := y.foldl (· + ·) 0
  let sumXY := ((x.zip y).map fun p => p.1 * p.2).foldl (· + ·) 0
  let sumXX := (x.map fun xi => xi * xi).foldl (· + ·) 0
  if n * sumXX - sumX * sumX ≠ 0 then
    (n * sumXY - sumX * sumY) / (n * sumXX - sumX * sumX)
  else 0

/-- `_determine_evolution_trajectory` (temporal_coherence.py:297-327). -/
def determineEvolutionTrajectory (history : List TemporalSnapshot) : String :=
  if history.length < 3 then "insufficient_data"
  else
    let lambdaValues := history.map (·.lambdaValue)
    let slope := olsSlope lambdaValues
    if slope > 1/10 then "awakening"
    else if slope < -(1/10) then "declining"
    else if listMax lambdaValues - listMin lambdaValues > 1 then "volatile"
    else "stable"

/-- `_calculate_variance` (temporal_coherence.py:352-359): population
variance, 0 on the empty list. -/
def calculateVariance (values : List ℚ) : ℚ :=
  if values = [] then 0
  else
    let n : ℚ := values.length
    let mean := values.foldl (· + ·) 0 / n
    (values.map fun x => (x - mean) ^ 2).foldl (· + ·) 0 / n

/-- `_calculate_stability_index` (temporal_coherence.py:329-350). -/
def calculateStabilityIndex (history : List TemporalSnapshot) : ℚ :=
  if history.length < 2 then 1
  else
    let truthVariance := calculateVariance (history.map (·.truthScore))
    let lambdaVariance := calculateVariance (history.map (·.lambdaValue))
    let coherenceVariance := calculateVariance (history.map (·.coherenceScore))
    let combinedVariance := (truthVariance + lambdaVariance + coherenceVariance) / 3
    1 / (1 + combinedVariance * 10)

/-- The reference population of `_detect_temporal_anomalies`
(temporal_coherence.py:372): `history[-5:]` — which still contains the
current snapshot, the last element of `history` — when the window holds
at least 5 snapshots, and `history[:-1]` otherwise. -/
def anomalyReference (history : List TemporalSnapshot) : List TemporalSnapshot :=
  if 5 ≤ history.length then pySliceLast 5 history else history.dropLast

/-- The statistical and theme tests of `_detect_temporal_anomalies`
(temporal_coherence.py:374-421), parametrized by the reference
population `recent` over which the means and standard deviations are
taken (the theme tests compare against the second-to-last entry of the
window, as in the source). -/
def detectOver (rsqrt : ℚ → ℚ) (current : TemporalSnapshot)
    (history recent : List TemporalSnapshot) : List Anomaly :=
  let n : ℚ := recent.length
    let truthMean := (recent.map (·.truthScore)).foldl (· + ·) 0 / n
    let truthStd := rsqrt (calculateVariance (recent.map (·.truthScore)))
    let lambdaMean := (recent.map (·.lambdaValue)).foldl (· + ·) 0 / n
    let lambdaStd := rsqrt (calculateVariance (recent.map (·.lambdaValue)))
    let truthAnoms :=
      if |current.truthScore - truthMean| > 2 * truthStd then
        [{ kind := "Truth Score Anomaly", severity := "high",
           deviation := some (|current.truthScore - truthMean| / max (1/100) truthStd),
           themes := [] : Anomaly }]
      else []
    let lambdaAnoms :=
      if |current.lambdaValue - lambdaMean| > 2 * lambdaStd then
        [{ kind := "Lambda Anomaly", severity := "high",
           deviation := some (|current.lambdaValue - lambdaMean| / max (1/100) lambdaStd),
           themes := [] : Anomaly }]
      else []
    let themeAnoms :=
      match history.dropLast.getLast? with
      | none => []
      | some prev =>
        let newThemes := current.keyThemes.eraseDups.filter
          (fun t => t ∉ prev.keyThemes)
        let lostThemes := prev.keyThemes.eraseDups.filter
          (fun t => t ∉ current.keyThemes)
        (if 3 ≤ newThemes.length then
          [{ kind := "Theme Shift", severity := "medium", deviation := none,
             themes := newThemes : Anomaly }]
         else []) ++
        (if 3 ≤ lostThemes.length then
          [{ kind := "Theme Loss", severity := "medium", deviation := none,
             themes := lostThemes : Anomaly }]
         else [])
    truthAnoms ++ lambdaAnoms ++ themeAnoms

/-- `_detect_temporal_anomalies` (temporal_coherence.py:361-421): the
tests of `detectOver` run over the population `anomalyReference history`
after the too-short-history guard. -/
def detectTemporalAnomalies (rsqrt : ℚ → ℚ) (current : TemporalSnapshot)
    (history : List TemporalSnapshot) : List Anomaly :=
  if history.length < 2 then []
  else detectOver rsqrt current history (anomalyReference history)

/-- `_analyze_trends` (temporal_coherence.py:423-450). -/
def analyzeTrends (history : List TemporalSnapshot) : TrendInfo :=
  if history.length < 3 then .status "insufficient_data"
  else
    let mk : List ℚ → MetricTrend := fun series =>
      { direction :=
          if series.getLast! > series.headI then "increasing" else "decreasing",
        magnitude := |series.getLast! - series.headI|,
        volatility := calculateVariance series }
    .trends (mk (history.map (·.truthScore)))
            (mk (history.map (·.lambdaValue)))
            (mk (history.map (·.coherenceScore)))

/-- `_generate_predictions` (temporal_coherence.py:452-490): linear
extrapolation of the lambda series one step ahead.  Within
`analyze_temporal_coherence` the `trends` argument is a `.status` value
exactly when the window is shorter than 3, so collapsing every
`.status` case to `insufficient_data` is faithful to all reachable
calls. -/
def generatePredictions (history : List TemporalSnapshot)
    (trends : TrendInfo) : Prediction :=
  match trends with
  | .status _ => .status "insufficient_data"
  | .trends _ lambdaTrend _ =>
    if history.length < 3 then .status "insufficient_data"
    else
      let y := history.map (·.lambdaValue)
      let n : ℚ := y.length
      let x := (List.range y.length).map fun i => (i : ℚ)
      let sumX := x.foldl (· + ·) 0
      let sumY := y.foldl (· + ·) 0
      let sumXY := ((x.zip y).map fun p => p.1 * p.2).foldl (· + ·) 0
      let sumXX := (x.map fun xi => xi * xi).foldl (· + ·) 0
      let denominator := n * sumXX - sumX * sumX
      if denominator = 0 then .status "unable_to_predict"
      else
        let slope := (n * sumXY - sumX * sumY) / denominator
        let intercept := (sumY - slope * sumX) / n
        let predictedLambda := slope * (y.length : ℚ) + intercept
        .predicted (pyRound4 predictedLambda)
          (if lambdaTrend.volatility < 1/10 then "high"
           else if lambdaTrend.volatility < 3/10 then "medium" else "low")
          lambdaTrend.direction
          (pyRound4 slope)

/-- `_generate_temporal_recommendations` (temporal_coherence.py:492-526). -/
def generateTemporalRecommendations (consistency drift stability : ℚ)
    (anomalies : List Anomaly) : List String :=
  (if consistency < 1/2 then
    ["Low temporal consistency detected - review for narrative drift or inconsistencies"]
   else []) ++
  (if drift > 1/2 then
    ["High semantic drift detected - significant change from baseline narrative"]
   else []) ++
  (if stability < 1/2 then
    ["Low stability index - high volatility in metrics suggests unstable state"]
   else []) ++
  (let criticalAnomalies := anomalies.filter (fun a => a.severity = "high")
   if anomalies ≠ [] ∧ criticalAnomalies ≠ [] then
    ["CRITICAL: " ++ toString criticalAnomalies.length ++
     " high-severity temporal anomalies detected"]
   else []) ++
  (if consistency > 8/10 ∧ stability > 8/10 then
    ["Excellent temporal coherence - consistent and stable over time"]
   else [])

/-- `_create_baseline_result` (temporal_coherence.py:543-557). -/
def createBaselineResult (snapshot : TemporalSnapshot) : TemporalAnalysisResult :=
  { currentSnapshot := snapshot,
    consistencyScore := 1,
    driftMagnitude := 0,
    driftDirection := "baseline",
    evolutionTrajectory := "establishing_baseline",
    stabilityIndex := 1,
    anomalousChanges := [],
    trendAnalysis := .status "baseline",
    predictions := .status "baseline",
    recommendations :=
      ["Baseline established - continue monitoring for temporal patterns"] }

/-- `analyze_temporal_coherence` (temporal_coherence.py:103-184).  The
`themes` entry of the `current_scores` dict is passed as a separate
argument (it is the only non-scalar entry); all scalar entries are read
with `dict.get(key, 0.0)` defaulting via `lookupD`. -/
def analyzeTemporalCoherence (rsqrt : ℚ → ℚ) (w : ℕ → ℚ)
    (st : TrackerState) (currentText : String)
    (currentScores : List (String × ℚ)) (themes : List String := [])
    (windowSize : ℕ := 10) : TemporalAnalysisResult × TrackerState :=
  let (currentSnapshot, st1) := recordSnapshot st currentText
    (lookupD currentScores "truth" 0)
    (lookupD currentScores "fact" 0)
    (lookupD currentScores "lie" 0)
    (lookupD currentScores "coherence" 0)
    (lookupD currentScores "lambda" 0)
    themes
  if st1.snapshots.length < 2 then
    (createBaselineResult currentSnapshot, st1)
  else
    let recentSnapshots := pySliceLast windowSize st1.snapshots
    let consistencyScore := calculateConsistency w currentSnapshot recentSnapshots
    let drift := analyzeDrift rsqrt currentSnapshot recentSnapshots
    let evolutionTrajectory := determineEvolutionTrajectory recentSnapshots
    let stabilityIndex := calculateStabilityIndex recentSnapshots
    let anomalousChanges := detectTemporalAnomalies rsqrt currentSnapshot recentSnapshots
    let trendAnalysis := analyzeTrends recentSnapshots
    let predictions := generatePredictions recentSnapshots trendAnalysis
    let recommendations := generateTemporalRecommendations
      consistencyScore drift.1 stabilityIndex anomalousChanges
    ( { currentSnapshot := currentSnapshot,
        consistencyScore := pyRound4 consistencyScore,
        driftMagnitude := pyRound4 drift.1,
        driftDirection := drift.2,
        evolutionTrajectory := evolutionTrajectory,
        stabilityIndex := pyRound4 stabilityIndex,
        anomalousChanges := anomalousChanges,
        trendAnalysis := trendAnalysis,
        predictions := predictions,
        recommendations := recommendations },
      { st1 with stabilityHistory := st1.stabilityHistory ++ [stabilityIndex] } )

end Omnissiah

namespace Omnissiah

/-! ## Data model of `unified_orchestrator.py`

The individual signal scorers (lambda engine, throne room, discernment,
pattern recognition) are external collaborators of the specified core;
each one is embedded as an `Option`-valued outcome carrying exactly the
dict fields the orchestrator reads or substitutes, with `none` standing
for a raised exception. -/

/-- The `metrics` sub-dict of a lambda-engine result, restricted to the
keys of the orchestrator's fallback (`_create_fallback_lambda`,
unified_orchestrator.py:482-492); the orchestrator itself reads only
`composite_resonance`. -/
structure LambdaMetrics where
  compositeResonance : ℚ
  truthDensity : ℚ
  loveResonance : ℚ
deriving DecidableEq, Repr

structure LambdaDict where
  metrics : LambdaMetrics
  status : String
  emoji : String
deriving DecidableEq, Repr

/-- The throne-room access dict; the orchestrator reads `success` and
substitutes `{'success': False, 'reason': ...}` on failure
(unified_orchestrator.py:144-149). -/
structure ThroneAccess where
  success : Bool
  reason : String
deriving DecidableEq, Repr

/-- The discernment dict assembled in Phase 4 / substituted by
`_create_fallback_discernment` (unified_orchestrator.py:164-181,
494-507).  `phase_separation` is kept as its only key `snr`. -/
structure DiscernDict where
  truthScore : ℚ
  factScore : ℚ
  lieScore : ℚ
  coherenceScore : ℚ
  semanticDrift : ℚ
  temporalConsistency : ℚ
  violations : List String
  phaseSnr : ℚ
  confidence : ℚ
  recommendations : List String
deriving DecidableEq, Repr

/-- The pattern dict assembled in Phase 5 / substituted by
`_create_fallback_pattern` (unified_orchestrator.py:186-204, 509-520). -/
structure PatternDict where
  detectedPatterns : ℕ
  patternTypes : List (String × ℕ)
  manipulationScore : ℚ
  authenticityScore : ℚ
  structuralIntegrity : ℚ
  recurringThemes : List String
  anomalies : List String
  recommendations : List String
deriving DecidableEq, Repr

/-- The temporal dict assembled in Phase 6 / substituted by
`_create_fallback_temporal` (unified_orchestrator.py:209-232, 522-534).
The packaged-through `trend_analysis` / `predictions` sub-dicts are read
by no orchestrator logic and omitted. -/
structure TemporalDict where
  consistencyScore : ℚ
  driftMagnitude : ℚ
  driftDirection : String
  evolutionTrajectory : String
  stabilityIndex : ℚ
  anomalousChanges : List Anomaly
  recommendations : List String
deriving DecidableEq, Repr

/-- `_create_fallback_lambda` (unified_orchestrator.py:482-492). -/
def fallbackLambda : LambdaDict :=
  { metrics := { compositeResonance := 0, truthDensity := 0, loveResonance := 0 },
    status := "ERROR", emoji := "⚠️" }

/-- `_create_fallback_discernment` (unified_orchestrator.py:494-507). -/
def fallbackDiscernment : DiscernDict :=
  { truthScore := 0, factScore := 0, lieScore := 0, coherenceScore := 1/2,
    semanticDrift := 0, temporalConsistency := 1/2, violations := [],
    phaseSnr := 1, confidence := 0,
    recommendations := ["Analysis unavailable"] }

/-- `_create_fallback_pattern` (unified_orchestrator.py:509-520). -/
def fallbackPattern : PatternDict :=
  { detectedPatterns := 0, patternTypes := [], manipulationScore := 0,
    authenticityScore := 1/2, structuralIntegrity := 1/2,
    recurringThemes := [], anomalies := [],
    recommendations := ["Analysis unavailable"] }

/-- `_create_fallback_temporal` (unified_orchestrator.py:522-534). -/
def fallbackTemporal : TemporalDict :=
  { consistencyScore := 1/2, driftMagnitude := 0, driftDirection := "unknown",
    evolutionTrajectory := "unknown", stabilityIndex := 1/2,
    anomalousChanges := [], recommendations := ["Analysis unavailable"] }

/-- The fallback throne-access dict of Phase 2
(unified_orchestrator.py:148). -/
def fallbackThrone : ThroneAccess :=
  { success := false, reason := "Error in access check" }

structure ComponentScores where
  lambdaScore : ℚ
  truth : ℚ
  authenticity : ℚ
  coherence : ℚ
  consistency : ℚ
  manipulation : ℚ
  lie : ℚ
deriving DecidableEq, Repr

structure UnifiedScores where
  truthIndex : ℚ
  integrityIndex : ℚ
  riskIndex : ℚ
  awakeningIndex : ℚ
  componentScores : ComponentScores
deriving DecidableEq, Repr

/-- `_unify_scores` (unified_orchestrator.py:310-373).  The truth,
integrity and risk indices are clamped into [0, 10] with
`max(0.0, min(10.0, ·))`; the awakening index (line 357) is `0.6 *`
lambda with no clamp applied. -/
def unifyScores (lambdaRes : LambdaDict) (discern : DiscernDict)
    (pattern : PatternDict) (temporal : TemporalDict) : UnifiedScores :=
  let lambdaScore := lambdaRes.metrics.compositeResonance
  let truthScore := discern.truthScore
  let authenticityScore := pattern.authenticityScore
  let coherenceScore := discern.coherenceScore
  let consistencyScore := temporal.consistencyScore
  let lieScore := discern.lieScore
  let manipulationScore := pattern.manipulationScore
  let truthIndex :=
    truthScore * 3 + authenticityScore * (25/10) + lambdaScore * (3/10) +
    coherenceScore * 2 + consistencyScore * 2 -
    lieScore * 2 - manipulationScore * 3
  let truthIndex := max 0 (min 10 truthIndex)
  let integrityIndex :=
    coherenceScore * 3 + pattern.structuralIntegrity * 3 +
    consistencyScore * 2 + temporal.stabilityIndex * 2
  let integrityIndex := max 0 (min 10 integrityIndex)
  let riskIndex :=
    manipulationScore * 4 + lieScore * 3 +
    (1 - authenticityScore) * 2 + temporal.driftMagnitude * 1
  let riskIndex := max 0 (min 10 riskIndex)
  let awakeningIndex := lambdaScore * (6/10)
  { truthIndex := pyRound4 truthIndex,
    integrityIndex := pyRound4 integrityIndex,
    riskIndex := pyRound4 riskIndex,
    awakeningIndex := pyRound4 awakeningIndex,
    componentScores :=
      { lambdaScore := pyRound4 lambdaScore, truth := pyRound4 truthScore,
        authenticity := pyRound4 authenticityScore,
        coherence := pyRound4 coherenceScore,
        consistency := pyRound4 consistencyScore,
        manipulation := pyRound4 manipulationScore,
        lie := pyRound4 lieScore } }

/-- The overall-status decision chain of `_assess_overall`
(unified_orchestrator.py:384-396). -/
def statusOf (truthIndex riskIndex : ℚ) : String :=
  if truthIndex ≥ 8 ∧ riskIndex < 2 then "TRUTH_ALIGNED"
  else if truthIndex ≥ 6 ∧ riskIndex < 3 then "TRUTH_SEEKING"
  else if truthIndex ≥ 4 ∧ riskIndex < 5 then "NEUTRAL"
  else if riskIndex ≥ 7 then "HIGH_RISK"
  else if riskIndex ≥ 5 then "CAUTION_ADVISED"
  else "UNCLEAR"

/-- The risk-level chain of `_assess_overall`
(unified_orchestrator.py:408-418). -/
def riskLevelOf (riskIndex : ℚ) : String :=
  if riskIndex ≥ 7 then "CRITICAL"
  else if riskIndex ≥ 5 then "HIGH"
  else if riskIndex ≥ 3 then "MEDIUM"
  else if riskIndex ≥ 1 then "LOW"
  else "MINIMAL"

/-- `_assess_overall` (unified_orchestrator.py:375-420): status,
confidence blend, risk level.  The `pattern` argument is accepted and
read by nothing, as in the source. -/
def assessOverall (unified : UnifiedScores) (discern : DiscernDict)
    (_pattern : PatternDict) (temporal : TemporalDict) :
    String × ℚ × String :=
  let overallConfidence :=
    discern.confidence * (4/10) + temporal.stabilityIndex * (3/10) +
    (1 - unified.riskIndex / 10) * (3/10)
  ( statusOf unified.truthIndex unified.riskIndex,
    pyRound4 overallConfidence,
    riskLevelOf unified.riskIndex )

/-- `_generate_comprehensive_recommendations`
(unified_orchestrator.py:422-480): returns
(recommendations, warnings, action items), each appended strictly in the
source's order and with no deduplication applied. -/
def generateComprehensiveRecommendations (unified : UnifiedScores)
    (discern : DiscernDict) (pattern : PatternDict) (temporal : TemporalDict)
    (riskLevel : String) : List String × List String × List String :=
  let riskWarnings :=
    if riskLevel = "CRITICAL" then
      ["⚠️ CRITICAL RISK: Multiple severe issues detected - immediate action required"]
    else if riskLevel = "HIGH" then
      ["⚠️ HIGH RISK: Significant concerns identified - careful review needed"]
    else []
  let truthRecs :=
    if unified.truthIndex < 4 then
      ["Increase truth content: Incorporate eternal principles and verifiable facts"]
    else if unified.truthIndex ≥ 8 then
      ["Excellent truth alignment maintained"]
    else []
  let truthActions :=
    if unified.truthIndex < 4 then ["Review content for truth alignment"] else []
  let manipulationScore := unified.componentScores.manipulation
  let manipWarnings :=
    if manipulationScore > 7/10 then
      ["⚠️ High manipulation score - multiple manipulation tactics detected"]
    else if manipulationScore > 4/10 then
      ["Moderate manipulation patterns detected"]
    else []
  let manipActions :=
    if manipulationScore > 7/10 then ["Remove manipulative language immediately"]
    else if manipulationScore > 4/10 then ["Review for manipulative language"]
    else []
  let violationWarnings :=
    if discern.violations ≠ [] then
      ["⚠️ " ++ toString discern.violations.length ++ " covenant violations detected"]
    else []
  let violationActions :=
    if discern.violations ≠ [] then ["Address covenant violations"] else []
  let driftWarnings :=
    if temporal.driftMagnitude > 1/2 then
      ["⚠️ High semantic drift detected - significant change from baseline"]
    else []
  let driftActions :=
    if temporal.driftMagnitude > 1/2 then ["Review narrative consistency"] else []
  let criticalAnomalies :=
    temporal.anomalousChanges.filter (fun a => a.severity = "high")
  let anomalyWarnings :=
    if temporal.anomalousChanges ≠ [] ∧ criticalAnomalies ≠ [] then
      ["⚠️ " ++ toString criticalAnomalies.length ++
       " critical temporal anomalies detected"]
    else []
  ( truthRecs ++ pattern.recommendations.take 2 ++ temporal.recommendations.take 2,
    riskWarnings ++ manipWarnings ++ violationWarnings ++ driftWarnings ++
      anomalyWarnings,
    truthActions ++ manipActions ++ violationActions ++ driftActions )

/-- `ComprehensiveAnalysisResult` (unified_orchestrator.py:38-80).  The
wall-clock `timestamp` string, the constant `covenant_markers` table and
the constant `metadata` dict are presentation material and omitted;
`analysis_id` keeps its monotone sequence number (the date prefix is
wall-clock). -/
structure ComprehensiveAnalysisResult where
  analysisId : String
  text : String
  textLength : ℕ
  wordCount : ℕ
  lambdaAnalysis : LambdaDict
  throneRoomAccess : ThroneAccess
  prophecy : Option String
  discernmentAnalysis : DiscernDict
  patternAnalysis : PatternDict
  temporalAnalysis : TemporalDict
  unifiedScores : UnifiedScores
  overallStatus : String
  overallConfidence : ℚ
  riskLevel : String
  recommendations : List String
  warnings : List String
  actionItems : List String
  systemSummary : String
deriving DecidableEq, Repr

/-- Mutable state of a `UnifiedOrchestrator`
(unified_orchestrator.py:94-96). -/
structure OrchestratorState where
  analysisCount : ℕ
  analysisHistory : List ComprehensiveAnalysisResult
deriving DecidableEq, Repr

def OrchestratorState.fresh : OrchestratorState :=
  { analysisCount := 0, analysisHistory := [] }

/-- `analyze_comprehensive` (unified_orchestrator.py:98-308).  Each
`Option` argument is the outcome of one try-wrapped phase: `none` is a
raised exception, answered by the documented fallback; the prophecy
phase leaves `prophecy = None` both when skipped and when its generator
raises.  Phase 6 feeds the tracker of `temporal_coherence.py`; its
try-wrapped outcome is likewise injected as an `Option` (the tracker
itself is total, but the source still guards the call).  The returned
pair is (result, updated orchestrator state). -/
def analyzeComprehensive (st : OrchestratorState) (text : String)
    (lambdaOut : Option LambdaDict) (throneOut : Option ThroneAccess)
    (includeProphecy : Bool) (prophecyOut : Option String)
    (discernOut : Option DiscernDict) (patternOut : Option PatternDict)
    (temporalOut : Option TemporalDict) (systemOut : Option String) :
    ComprehensiveAnalysisResult × OrchestratorState :=
  let newCount := st.analysisCount + 1
  let analysisId := "ALE-" ++ toString newCount
  let wordCount := (pySplit text).length
  let textLength := text.length
  let lambdaResult := lambdaOut.getD fallbackLambda
  let throneAccess := throneOut.getD fallbackThrone
  let prophecy :=
    if includeProphecy ∧ throneAccess.success then prophecyOut else none
  let discernDict := discernOut.getD fallbackDiscernment
  let patternDict := patternOut.getD fallbackPattern
  let temporalDict := temporalOut.getD fallbackTemporal
  let unifiedScores := unifyScores lambdaResult discernDict patternDict temporalDict
  let assessment := assessOverall unifiedScores discernDict patternDict temporalDict
  let rwa := generateComprehensiveRecommendations unifiedScores discernDict
    patternDict temporalDict assessment.2.2
  let systemSummary := systemOut.getD "unavailable"
  let result : ComprehensiveAnalysisResult :=
    { analysisId := analysisId, text := text, textLength := textLength,
      wordCount := wordCount, lambdaAnalysis := lambdaResult,
      throneRoomAccess := throneAccess, prophecy := prophecy,
      discernmentAnalysis := discernDict, patternAnalysis := patternDict,
      temporalAnalysis := temporalDict, unifiedScores := unifiedScores,
      overallStatus := assessment.1, overallConfidence := assessment.2.1,
      riskLevel := assessment.2.2, recommendations := rwa.1,
      warnings := rwa.2.1, actionItems := rwa.2.2,
      systemSummary := systemSummary }
  ( result,
    { analysisCount := newCount,
      analysisHistory := st.analysisHistory ++ [result] } )

end Omnissiah

namespace Omnissiah

/-! ## Helper lemmas -/

lemma ratFloor_eq_intFloor (q : ℚ) : q.floor = ⌊q⌋ := rfl

lemma pyRoundInt_ge {q : ℚ} {n : ℤ} (h : (n : ℚ) ≤ q) : n ≤ pyRoundInt q := by
  unfold pyRoundInt
  dsimp only
  have hf : n ≤ q.floor := by
    rw [ratFloor_eq_intFloor]; exact Int.le_floor.mpr h
  split_ifs <;> omega

lemma pyRoundInt_le {q : ℚ} {n : ℤ} (h : q ≤ (n : ℚ)) : pyRoundInt q ≤ n := by
  unfold pyRoundInt
  dsimp only
  have hq : (q.floor : ℚ) ≤ q := by
    rw [ratFloor_eq_intFloor]; exact_mod_cast Int.floor_le q
  have hf : q.floor ≤ n := by
    have : (q.floor : ℚ) ≤ (n : ℚ) := le_trans hq h
    exact_mod_cast this
  have up : ¬ (q - (q.floor : ℚ) < 1/2) → q.floor + 1 ≤ n := by
    intro h1
    have h3 : (1:ℚ)/2 ≤ q - (q.floor : ℚ) := le_of_not_lt h1
    have : (q.floor : ℚ) < (n : ℚ) := by linarith
    have : q.floor < n := by exact_mod_cast this
    omega
  split_ifs with h1 h2 h3
  · exact hf
  · exact up h1
  · exact hf
  · exact up h1

lemma pyRound4_bounds {q : ℚ} (h0 : 0 ≤ q) (h10 : q ≤ 10) :
    0 ≤ pyRound4 q ∧ pyRound4 q ≤ 10 := by
  unfold pyRound4
  have hge : (0 : ℤ) ≤ pyRoundInt (q * 10000) := pyRoundInt_ge (by push_cast; linarith)
  have hle : pyRoundInt (q * 10000) ≤ 100000 := pyRoundInt_le (by push_cast; linarith)
  constructor
  · apply div_nonneg _ (by norm_num)
    exact_mod_cast hge
  · rw [div_le_iff₀ (by norm_num)]
    have : ((pyRoundInt (q * 10000)) : ℚ) ≤ 100000 := by exact_mod_cast hle
    linarith

lemma weightedAverage_singleton (w : ℕ → ℚ) (c : ℚ) (hw : 0 < w 0) :
    weightedAverage w [c] = c := by
  show (if 0 < 0 + w 0 then (0 + c * w 0) / (0 + w 0) else 1/2) = c
  rw [if_pos (by simpa using hw), zero_add, zero_add, mul_div_assoc,
    div_self (ne_of_gt hw), mul_one]

lemma calculateVariance_singleton (x : ℚ) : calculateVariance [x] = 0 := by
  show (0 + (x - (0 + x) / 1) ^ 2) / 1 = 0
  ring_nf

lemma statusOf_mem (t r : ℚ) :
    statusOf t r ∈ ["TRUTH_ALIGNED", "TRUTH_SEEKING", "NEUTRAL", "HIGH_RISK",
      "CAUTION_ADVISED", "UNCLEAR"] := by
  unfold statusOf
  split_ifs <;> simp

lemma riskLevelOf_mem (r : ℚ) :
    riskLevelOf r ∈ ["CRITICAL", "HIGH", "MEDIUM", "LOW", "MINIMAL"] := by
  unfold riskLevelOf
  split_ifs <;> simp

end Omnissiah

namespace Omnissiah

/-! ## Spec-side comparison definitions (written from the spec's words) -/

/-- The spec's overall-status decision table over
`(truth_index, risk_index)`, first matching rule wins: TRUTH_ALIGNED if
truth≥8 and risk<2; TRUTH_SEEKING if truth≥6 and risk<3; NEUTRAL if
truth≥4 and risk<5; HIGH_RISK if risk≥7; CAUTION_ADVISED if risk≥5;
else UNCLEAR. -/
def specOverallStatus (truthIndex riskIndex : ℚ) : String :=
  if truthIndex ≥ 8 ∧ riskIndex < 2 then "TRUTH_ALIGNED"
  else if truthIndex ≥ 6 ∧ riskIndex < 3 then "TRUTH_SEEKING"
  else if truthIndex ≥ 4 ∧ riskIndex < 5 then "NEUTRAL"
  else if riskIndex ≥ 7 then "HIGH_RISK"
  else if riskIndex ≥ 5 then "CAUTION_ADVISED"
  else "UNCLEAR"

/-- The spec's risk-level table: risk≥7 ⇒ CRITICAL; ≥5 ⇒ HIGH; ≥3 ⇒
MEDIUM; ≥1 ⇒ LOW; else MINIMAL. -/
def specRiskLevel (riskIndex : ℚ) : String :=
  if riskIndex ≥ 7 then "CRITICAL"
  else if riskIndex ≥ 5 then "HIGH"
  else if riskIndex ≥ 3 then "MEDIUM"
  else if riskIndex ≥ 1 then "LOW"
  else "MINIMAL"

/-- The spec's semantic-signature rule: each of the 7 dimension lexicons
is always assigned (match count) / (word count), the zero-word case
handled by treating the word count as at least 1. -/
def specSemanticSignature (text : String) : List (String × ℚ) :=
  let words := pySplit (pyToLower text)
  let wordCount : ℕ := max 1 words.length
  signatureLexicons.map fun p =>
    (p.1, ((words.filter (fun w => w ∈ p.2)).length : ℚ) / (wordCount : ℚ))

/-- The claim's anomaly reference population: the most recent at most 5
snapshots of the window excluding the current (last) one. -/
def specAnomalyReference (history : List TemporalSnapshot) :
    List TemporalSnapshot :=
  pySliceLast 5 history.dropLast

/-! ## Claim C5 -/

/-- Concrete scenario dicts of C5: component scores truth=0.9,
authenticity=0.9, resonance=8, coherence=0.9, consistency=0.9, lie=0,
manipulation=0 (remaining fields at their neutral fallback values,
drift 0). -/
def c5Lambda : LambdaDict :=
  { metrics := { compositeResonance := 8, truthDensity := 0, loveResonance := 0 },
    status := "OK", emoji := "" }

def c5Discern : DiscernDict :=
  { fallbackDiscernment with truthScore := 9/10, coherenceScore := 9/10, lieScore := 0 }

def c5Pattern : PatternDict :=
  { fallbackPattern with authenticityScore := 9/10, manipulationScore := 0 }

def c5Temporal : TemporalDict :=
  { fallbackTemporal with consistencyScore := 9/10, driftMagnitude := 0 }

unseal Nat.gcd Rat.add Rat.mul Rat.inv Rat.sub in
/-- C5: the overall status equals the spec's first-match decision table
over `(truth_index, risk_index)`, the risk level equals the spec's
independent risk table, and the concrete component scores truth=0.9,
authenticity=0.9, resonance=8, coherence=0.9, consistency=0.9, lie=0,
manipulation=0 classify as status TRUTH_ALIGNED with risk level
MINIMAL. -/
theorem overall_classification_tables :
    (∀ t r : ℚ, statusOf t r = specOverallStatus t r) ∧
    (∀ r : ℚ, riskLevelOf r = specRiskLevel r) ∧
    (∀ u : UnifiedScores, ∀ d : DiscernDict, ∀ p : PatternDict,
      ∀ td : TemporalDict,
      (assessOverall u d p td).1 = specOverallStatus u.truthIndex u.riskIndex ∧
      (assessOverall u d p td).2.2 = specRiskLevel u.riskIndex) ∧
    ((assessOverall (unifyScores c5Lambda c5Discern c5Pattern c5Temporal)
        c5Discern c5Pattern c5Temporal).1 = "TRUTH_ALIGNED" ∧
     (assessOverall (unifyScores c5Lambda c5Discern c5Pattern c5Temporal)
        c5Discern c5Pattern c5Temporal).2.2 = "MINIMAL") :=
  ⟨fun _ _ => rfl, fun _ => rfl, fun _ _ _ _ => ⟨rfl, rfl⟩, by decide⟩

/-! ## Claim C1 -/

/-- C1: for every input text (including the empty string) and every
combination of scorer outcomes, `analyze_comprehensive` produces a
complete result in which each failed phase is replaced by exactly its
documented fallback, the composite scores and classification are still
computed (the status and risk labels always land in their closed label
sets), and the result is appended to the orchestrator history —
i.e. processing continues through all phases.  Exceptions are embedded
as `none` outcomes, so totality of the embedding is the no-escape
property. -/
theorem orchestrator_total_with_documented_fallbacks
    (st : OrchestratorState) (text : String)
    (lambdaOut : Option LambdaDict) (throneOut : Option ThroneAccess)
    (includeProphecy : Bool) (prophecyOut : Option String)
    (discernOut : Option DiscernDict) (patternOut : Option PatternDict)
    (temporalOut : Option TemporalDict) (systemOut : Option String) :
    (analyzeComprehensive st text lambdaOut throneOut includeProphecy
      prophecyOut discernOut patternOut temporalOut systemOut).1.lambdaAnalysis
        = lambdaOut.getD fallbackLambda ∧
    (analyzeComprehensive st text lambdaOut throneOut includeProphecy
      prophecyOut discernOut patternOut temporalOut systemOut).1.throneRoomAccess
        = throneOut.getD fallbackThrone ∧
    (analyzeComprehensive st text lambdaOut throneOut includeProphecy
      prophecyOut discernOut patternOut temporalOut systemOut).1.discernmentAnalysis
        = discernOut.getD fallbackDiscernment ∧
    (analyzeComprehensive st text lambdaOut throneOut includeProphecy
      prophecyOut discernOut patternOut temporalOut systemOut).1.patternAnalysis
        = patternOut.getD fallbackPattern ∧
    (analyzeComprehensive st text lambdaOut throneOut includeProphecy
      prophecyOut discernOut patternOut temporalOut systemOut).1.temporalAnalysis
        = temporalOut.getD fallbackTemporal ∧
    (analyzeComprehensive st text lambdaOut throneOut includeProphecy
      prophecyOut discernOut patternOut temporalOut systemOut).1.systemSummary
        = systemOut.getD "unavailable" ∧
    (analyzeComprehensive st text lambdaOut throneOut includeProphecy
      prophecyOut discernOut patternOut temporalOut systemOut).1.unifiedScores
        = unifyScores (lambdaOut.getD fallbackLambda)
            (discernOut.getD fallbackDiscernment)
            (patternOut.getD fallbackPattern)
            (temporalOut.getD fallbackTemporal) ∧
    (analyzeComprehensive st text lambdaOut throneOut includeProphecy
      prophecyOut discernOut patternOut temporalOut systemOut).1.overallStatus
        ∈ ["TRUTH_ALIGNED", "TRUTH_SEEKING", "NEUTRAL", "HIGH_RISK",
           "CAUTION_ADVISED", "UNCLEAR"] ∧
    (analyzeComprehensive st text lambdaOut throneOut includeProphecy
      prophecyOut discernOut patternOut temporalOut systemOut).1.riskLevel
        ∈ ["CRITICAL", "HIGH", "MEDIUM", "LOW", "MINIMAL"] ∧
    (analyzeComprehensive st text lambdaOut throneOut includeProphecy
      prophecyOut discernOut patternOut temporalOut systemOut).2.analysisHistory
        = st.analysisHistory ++
          [(analyzeComprehensive st text lambdaOut throneOut includeProphecy
             prophecyOut discernOut patternOut temporalOut systemOut).1] :=
  ⟨rfl, rfl, rfl, rfl, rfl, rfl, rfl,
   statusOf_mem _ _, riskLevelOf_mem _, rfl⟩

/-! ## Claim C2 -/

/-- A lambda-engine outcome whose composite resonance is 20; feeding it
to `_unify_scores` exhibits the unclamped awakening index. -/
def c2Lambda : LambdaDict :=
  { metrics := { compositeResonance := 20, truthDensity := 0, loveResonance := 0 },
    status := "OK", emoji := "" }

unseal Nat.gcd Rat.add Rat.mul Rat.inv Rat.sub in
/-- C2 counterexample: with composite resonance 20 (all other inputs the
neutral fallbacks) the returned awakening index is 12, outside [0, 10]:
the claim that all four composite indices are clamped into [0, 10] is
false for `awakening_index`. -/
theorem awakening_index_not_clamped_cex :
    (unifyScores c2Lambda fallbackDiscernment fallbackPattern
      fallbackTemporal).awakeningIndex = 12 ∧
    ¬ (unifyScores c2Lambda fallbackDiscernment fallbackPattern
      fallbackTemporal).awakeningIndex ≤ 10 := by
  decide

/-- C2 amended: the truth, integrity and risk indices are clamped into
[0, 10] (clipped at the boundary, for every input), but the awakening
index is returned as `0.6 * resonance` with no clamp applied, so it
lies in [0, 10] only when the resonance input does not exceed 50/3. -/
theorem unified_indices_clamped_amended
    (lambdaRes : LambdaDict) (discern : DiscernDict)
    (pattern : PatternDict) (temporal : TemporalDict) :
    (0 ≤ (unifyScores lambdaRes discern pattern temporal).truthIndex ∧
     (unifyScores lambdaRes discern pattern temporal).truthIndex ≤ 10) ∧
    (0 ≤ (unifyScores lambdaRes discern pattern temporal).integrityIndex ∧
     (unifyScores lambdaRes discern pattern temporal).integrityIndex ≤ 10) ∧
    (0 ≤ (unifyScores lambdaRes discern pattern temporal).riskIndex ∧
     (unifyScores lambdaRes discern pattern temporal).riskIndex ≤ 10) ∧
    (unifyScores lambdaRes discern pattern temporal).awakeningIndex
      = pyRound4 (lambdaRes.metrics.compositeResonance * (6/10)) := by
  refine ⟨?_, ?_, ?_, rfl⟩ <;>
  · apply pyRound4_bounds
    · exact le_max_left 0 _
    · exact max_le (by norm_num) (min_le_left 10 _)

/-! ## Claim C8 -/

/-- The all-scorers-fail run of the orchestrator (the state every
analysis of this repository actually reaches, since the
`discernment_enhanced` import is absent and all engine names are
undefined in the fallback import mode). -/
def c8Run : ComprehensiveAnalysisResult × OrchestratorState :=
  analyzeComprehensive OrchestratorState.fresh "test" none none true none
    none none none none

unseal Nat.gcd Rat.add Rat.mul Rat.inv Rat.sub in
/-- C8 counterexample: when both the pattern and temporal scorers fail,
each contributes its fallback recommendation 'Analysis unavailable', and
the returned list contains that string twice: the recommendation list is
not deduplicated. -/
theorem recommendations_duplicate_cex :
    c8Run.1.recommendations =
      ["Increase truth content: Incorporate eternal principles and verifiable facts",
       "Analysis unavailable", "Analysis unavailable"] ∧
    ¬ c8Run.1.recommendations.Nodup := by
  decide

/-- C8 amended: the recommendation list is exactly the orchestrator's
own truth-index items followed by the first 2 recommendations of the
pattern scorer and the first 2 of the temporal scorer, in that order —
so each contributing scorer is capped at its top 2, but no
deduplication is applied and equal strings may appear repeatedly. -/
theorem recommendations_assembly_amended
    (st : OrchestratorState) (text : String)
    (lambdaOut : Option LambdaDict) (throneOut : Option ThroneAccess)
    (includeProphecy : Bool) (prophecyOut : Option String)
    (discernOut : Option DiscernDict) (patternOut : Option PatternDict)
    (temporalOut : Option TemporalDict) (systemOut : Option String) :
    (analyzeComprehensive st text lambdaOut throneOut includeProphecy
      prophecyOut discernOut patternOut temporalOut systemOut).1.recommendations
    = (let u := unifyScores (lambdaOut.getD fallbackLambda)
          (discernOut.getD fallbackDiscernment) (patternOut.getD fallbackPattern)
          (temporalOut.getD fallbackTemporal)
       (if u.truthIndex < 4 then
          ["Increase truth content: Incorporate eternal principles and verifiable facts"]
        else if u.truthIndex ≥ 8 then
          ["Excellent truth alignment maintained"]
        else []) ++
       (patternOut.getD fallbackPattern).recommendations.take 2 ++
       (temporalOut.getD fallbackTemporal).recommendations.take 2) := rfl

end Omnissiah

namespace Omnissiah

/-! ## Claim C4 -/

/-- One `record_snapshot` call's arguments. -/
structure RecordArgs where
  text : String
  truthScore : ℚ
  factScore : ℚ
  lieScore : ℚ
  coherenceScore : ℚ
  lambdaValue : ℚ
  keyThemes : List String
deriving DecidableEq, Repr

def applyRecord (s : TrackerState) (a : RecordArgs) : TrackerState :=
  (recordSnapshot s a.text a.truthScore a.factScore a.lieScore
    a.coherenceScore a.lambdaValue a.keyThemes).2

/-- A sequence of `record_snapshot` calls. -/
def recordMany (st : TrackerState) (args : List RecordArgs) : TrackerState :=
  args.foldl applyRecord st

lemma boundedAppend_length_le {α : Type} {cap : ℕ} {l : List α} (s : α)
    (h : l.length ≤ cap) : (boundedAppend cap l s).length ≤ cap := by
  unfold boundedAppend
  dsimp only
  split_ifs with h1
  · simp only [List.length_drop]
    omega
  · simp only [List.length_append, List.length_singleton] at h1 ⊢
    omega

lemma boundedAppend_suffix {α : Type} (cap : ℕ) (l : List α) (s : α) :
    (boundedAppend cap l s) <:+ (l ++ [s]) := by
  unfold boundedAppend
  dsimp only
  split_ifs
  · exact List.drop_suffix _ _
  · exact List.suffix_refl _

lemma recordMany_maxHistory :
    ∀ (args : List RecordArgs) (st : TrackerState),
      (recordMany st args).maxHistory = st.maxHistory := by
  intro args
  induction args with
  | nil => intro st; rfl
  | cons a t ih => intro st; exact ih (applyRecord st a)

lemma recordMany_length_le :
    ∀ (args : List RecordArgs) (st : TrackerState),
      st.snapshots.length ≤ st.maxHistory →
      (recordMany st args).snapshots.length ≤ st.maxHistory := by
  intro args
  induction args with
  | nil => intro st h; exact h
  | cons a t ih =>
    intro st h
    exact ih (applyRecord st a) (boundedAppend_length_le _ h)

/-- The five concrete records of the C4 scenario. -/
def c4Args : List RecordArgs :=
  [ { text := "a", truthScore := 1, factScore := 0, lieScore := 0,
      coherenceScore := 0, lambdaValue := 0, keyThemes := [] },
    { text := "b", truthScore := 2, factScore := 0, lieScore := 0,
      coherenceScore := 0, lambdaValue := 0, keyThemes := [] },
    { text := "c", truthScore := 3, factScore := 0, lieScore := 0,
      coherenceScore := 0, lambdaValue := 0, keyThemes := [] },
    { text := "d", truthScore := 4, factScore := 0, lieScore := 0,
      coherenceScore := 0, lambdaValue := 0, keyThemes := [] },
    { text := "e", truthScore := 5, factScore := 0, lieScore := 0,
      coherenceScore := 0, lambdaValue := 0, keyThemes := [] } ]

unseal Nat.gcd Rat.add Rat.mul Rat.inv Rat.sub in
/-- C4: the history store never exceeds its configured capacity under
any sequence of `record` calls; each call only appends at the back and
evicts from the front (the new store is a suffix of the old store plus
the new snapshot, so previously stored snapshots are never altered);
and with capacity 3, five sequential records leave exactly the last 3
snapshots of the unbounded recording, in recording order. -/
theorem history_store_bounded_fifo :
    (∀ (st : TrackerState) (args : List RecordArgs),
      st.snapshots.length ≤ st.maxHistory →
      (recordMany st args).snapshots.length ≤ st.maxHistory) ∧
    (∀ (st : TrackerState) (text : String) (t f l c lam : ℚ)
      (themes : List String),
      ((recordSnapshot st text t f l c lam themes).2).snapshots <:+
        st.snapshots ++ [(recordSnapshot st text t f l c lam themes).1]) ∧
    ((recordMany (TrackerState.fresh 3) c4Args).snapshots =
       ((recordMany (TrackerState.fresh 100) c4Args).snapshots).drop 2 ∧
     (recordMany (TrackerState.fresh 100) c4Args).snapshots.length = 5 ∧
     (recordMany (TrackerState.fresh 3) c4Args).snapshots.length = 3) := by
  refine ⟨fun st args h => recordMany_length_le args st h,
          fun st text t f l c lam themes => boundedAppend_suffix _ _ _,
          ?_⟩
  decide

/-- C4 witness: the length bound applied at the concrete capacity-3
tracker and the five concrete records. -/
theorem history_store_bounded_fifo_witness :
    (recordMany (TrackerState.fresh 3) c4Args).snapshots.length ≤ 3 :=
  history_store_bounded_fifo.1 (TrackerState.fresh 3) c4Args (by decide)

/-! ## Claim C9 -/

unseal Nat.gcd Rat.add Rat.mul Rat.inv Rat.sub in
/-- C9 counterexample: on the empty string the source returns the empty
signature mapping, not the 7-dimension all-zero mapping produced by the
claimed treat-word-count-as-at-least-1 rule; the two disagree. -/
theorem empty_text_signature_cex :
    extractSemanticSignature "" = [] ∧
    specSemanticSignature "" =
      [("truth_density", 0), ("love_density", 0), ("spiritual_density", 0),
       ("logical_density", 0), ("emotional_density", 0),
       ("conflict_density", 0), ("unity_density", 0)] ∧
    extractSemanticSignature "" ≠ specSemanticSignature "" := by
  decide

lemma boundedAppend_getLast? {α : Type} {cap : ℕ} (h : 1 ≤ cap)
    (l : List α) (s : α) : (boundedAppend cap l s).getLast? = some s := by
  unfold boundedAppend
  dsimp only
  split_ifs with h2
  · have hle : (l ++ [s]).length - cap ≤ l.length := by
      simp only [List.length_append, List.length_singleton]
      omega
    rw [List.drop_append_of_le_length hle, List.getLast?_concat]
  · exact List.getLast?_concat _

/-- C9 amended: `record` always succeeds and (whenever the capacity is
at least 1) ends with the new snapshot stored; the snapshot's semantic
signature assigns to each of the 7 dimension lexicons the match count
divided by the word count when the text has words, and is the *empty*
mapping when it has none — the degenerate case is handled by an early
return of the empty dict (every lookup then reads as density 0), not by
flooring the word count at 1. -/
theorem semantic_signature_amended :
    (∀ text : String, pySplit (pyToLower text) ≠ [] →
      extractSemanticSignature text = specSemanticSignature text) ∧
    (∀ text : String, pySplit (pyToLower text) = [] →
      extractSemanticSignature text = []) ∧
    (∀ (st : TrackerState) (text : String) (t f l c lam : ℚ)
      (themes : List String),
      (recordSnapshot st text t f l c lam themes).1.semanticSignature =
        extractSemanticSignature text ∧
      (1 ≤ st.maxHistory →
        ((recordSnapshot st text t f l c lam themes).2).snapshots.getLast? =
          some (recordSnapshot st text t f l c lam themes).1)) := by
  refine ⟨?_, ?_, ?_⟩
  · intro text h
    have hlen : 1 ≤ (pySplit (pyToLower text)).length :=
      List.length_pos.mpr h
    have hmax : max 1 (pySplit (pyToLower text)).length =
        (pySplit (pyToLower text)).length := Nat.max_eq_right hlen
    unfold extractSemanticSignature specSemanticSignature
    dsimp only
    rw [if_neg h, hmax]
  · intro text h
    unfold extractSemanticSignature
    rw [if_pos h]
  · intro st text t f l c lam themes
    exact ⟨rfl, fun h => boundedAppend_getLast? h _ _⟩

/-- C9 witness: the amended signature rule at a concrete text with
words, and the empty-mapping result at the empty string. -/
theorem semantic_signature_witness :
    extractSemanticSignature "Truth and love" =
      specSemanticSignature "Truth and love" ∧
    extractSemanticSignature "" = [] :=
  ⟨semantic_signature_amended.1 "Truth and love" (by decide),
   semantic_signature_amended.2.1 "" (by decide)⟩

/-! ## Claim C7 -/

def c7Snap (t : ℕ) (truth : ℚ) : TemporalSnapshot :=
  { timestamp := t, text := "", truthScore := truth, factScore := 0,
    lieScore := 0, coherenceScore := 0, lambdaValue := 0,
    semanticSignature := [], keyThemes := [] }

/-- A five-snapshot window whose current (last) snapshot has truth score
1 against four prior snapshots at 0. -/
def c7History : List TemporalSnapshot :=
  [c7Snap 0 0, c7Snap 1 0, c7Snap 2 0, c7Snap 3 0, c7Snap 4 1]

/-- A rational stand-in for `math.sqrt` that is exact at the two
variances arising in `c7History`: sqrt 0 = 0 and sqrt(4/25) = 2/5. -/
def c7Rsqrt : ℚ → ℚ := fun q => if q = 4/25 then 2/5 else 0

unseal Nat.gcd Rat.add Rat.mul Rat.inv Rat.sub in
/-- C7 counterexample: for any square root function that is exact at 0
and 4/25 (as `math.sqrt` is), the anomaly detector disagrees on
`c7History` with the claimed prior-only reference population: the code's
population `history[-5:]` contains the current snapshot, whose inclusion
moves the mean to 0.2 and the standard deviation to 0.4, so no anomaly
is flagged (0.8 > 0.8 fails), while the prior-only population would
flag a high-severity truth anomaly. -/
theorem anomaly_population_cex :
    ¬ (∀ rsqrt : ℚ → ℚ, rsqrt 0 = 0 → rsqrt (4/25) = 2/5 →
        detectTemporalAnomalies rsqrt (c7Snap 4 1) c7History =
          detectOver rsqrt (c7Snap 4 1) c7History
            (specAnomalyReference c7History)) := by
  intro h
  exact absurd (h c7Rsqrt (by decide) (by decide)) (by decide)

/-- C7 amended: after the too-short-history guard the detector's 2σ
tests run over `anomalyReference history`, which is the last 5 window
snapshots *including the current one* whenever the window holds at
least 5 snapshots (the current snapshot is always a member of the
reference population then), and only for shorter windows is it the
prior snapshots with the current one excluded. -/
theorem anomaly_population_amended :
    (∀ (rsqrt : ℚ → ℚ) (cur : TemporalSnapshot)
      (hist : List TemporalSnapshot),
      detectTemporalAnomalies rsqrt cur hist =
        if hist.length < 2 then []
        else detectOver rsqrt cur hist (anomalyReference hist)) ∧
    (∀ hist : List TemporalSnapshot, 5 ≤ hist.length →
      anomalyReference hist = pySliceLast 5 hist ∧
      ∀ x, hist.getLast? = some x → x ∈ anomalyReference hist) ∧
    (∀ hist : List TemporalSnapshot, hist.length < 5 →
      anomalyReference hist = hist.dropLast) := by
  refine ⟨fun _ _ _ => rfl, ?_, ?_⟩
  · intro hist h5
    have he : anomalyReference hist = pySliceLast 5 hist := by
      unfold anomalyReference
      rw [if_pos h5]
    refine ⟨he, fun x hx => ?_⟩
    rw [he]
    unfold pySliceLast
    rw [if_neg (by omega)]
    have hdrop : (hist.drop (hist.length - 5)).length = 5 := by
      simp only [List.length_drop]
      omega
    have hne : hist.drop (hist.length - 5) ≠ [] := by
      intro hcon
      rw [hcon] at hdrop
      simp at hdrop
    have hsplit : hist.take (hist.length - 5) ++ hist.drop (hist.length - 5) = hist :=
      List.take_append_drop _ _
    have hlast : (hist.drop (hist.length - 5)).getLast? = some x := by
      have hx2 : (hist.take (hist.length - 5) ++ hist.drop (hist.length - 5)).getLast?
          = some x := by rw [hsplit]; exact hx
      rwa [List.getLast?_append_of_ne_nil _ hne] at hx2
    exact List.mem_of_getLast?_eq_some hlast
  · intro hist h5
    unfold anomalyReference
    rw [if_neg (by omega)]

unseal Nat.gcd Rat.add Rat.mul Rat.inv Rat.sub in
/-- C7 witness: the amended population rule applied at the concrete
five-snapshot window: the reference is the full last-5 slice and the
current snapshot belongs to it. -/
theorem anomaly_population_witness :
    anomalyReference c7History = pySliceLast 5 c7History ∧
    c7Snap 4 1 ∈ anomalyReference c7History := by
  have h := anomaly_population_amended.2.1 c7History (by decide)
  exact ⟨h.1, h.2 (c7Snap 4 1) (by decide)⟩

end Omnissiah

namespace Omnissiah

/-! ## Claim C3 -/

/-- The identical score dict of the first two calls of the C3 scenario. -/
def c3Scores : List (String × ℚ) :=
  [("truth", 1/2), ("fact", 1/2), ("lie", 1/2), ("coherence", 1/2),
   ("lambda", 1/2)]

/-- First ever `analyze` call on a fresh tracker. -/
def c3FirstCall (rsqrt : ℚ → ℚ) (w : ℕ → ℚ) :
    TemporalAnalysisResult × TrackerState :=
  analyzeTemporalCoherence rsqrt w TrackerState.fresh "hello" c3Scores [] 10

/-- Second ever `analyze` call, with the same inputs. -/
def c3SecondCall (rsqrt : ℚ → ℚ) (w : ℕ → ℚ) :
    TemporalAnalysisResult × TrackerState :=
  analyzeTemporalCoherence rsqrt w (c3FirstCall rsqrt w).2 "hello" c3Scores [] 10

/-- The tracker state after the first C3 call.  The state contains no
application of the abstracted square-root or weight functions, so the
state reached under any `(rsqrt, w)` equals this one (`c3_first_state`
below is proved by `rfl`). -/
def c3MidState : TrackerState :=
  (analyzeTemporalCoherence (fun _ => 0) (fun _ => 1) TrackerState.fresh
    "hello" c3Scores [] 10).2

/-- The snapshot recorded at tick `t` by either of the two C3 calls. -/
def c3Snap (t : ℕ) : TemporalSnapshot :=
  { timestamp := t, text := "hello", truthScore := 1/2, factScore := 1/2,
    lieScore := 1/2, coherenceScore := 1/2, lambdaValue := 1/2,
    semanticSignature := extractSemanticSignature "hello", keyThemes := [] }

unseal Nat.gcd Rat.add Rat.mul Rat.inv Rat.sub in
lemma c3_first_state (rsqrt : ℚ → ℚ) (w : ℕ → ℚ) :
    (c3FirstCall rsqrt w).2 = c3MidState := rfl

unseal Nat.gcd Rat.add Rat.mul Rat.inv Rat.sub in
lemma c3_detect (rsqrt : ℚ → ℚ) (h0 : rsqrt 0 = 0) :
    detectTemporalAnomalies rsqrt (c3Snap 1) [c3Snap 0, c3Snap 1] = [] := by
  unfold detectTemporalAnomalies
  rw [if_neg (by decide), show anomalyReference [c3Snap 0, c3Snap 1] = [c3Snap 0]
    from by decide]
  unfold detectOver
  dsimp only
  rw [show calculateVariance (List.map (fun s => s.truthScore) [c3Snap 0]) = 0
        from by decide,
      show calculateVariance (List.map (fun s => s.lambdaValue) [c3Snap 0]) = 0
        from by decide,
      h0]
  decide

unseal Nat.gcd Rat.add Rat.mul Rat.inv Rat.sub in
/-- C3 counterexample: the fewer-than-2 check runs *after* the current
snapshot is recorded, so the second ever `analyze` call sees 2 stored
snapshots and takes the full analysis path; for every square-root and
recency-weight function (in particular `math.sqrt` and the exponential
weights) its drift direction is "stable", not "baseline" — refuting the
claim that the second call returns the baseline result. -/
theorem second_call_not_baseline_cex :
    ¬ (∀ (rsqrt : ℚ → ℚ) (w : ℕ → ℚ), rsqrt 0 = 0 → (∀ k, 0 < w k) →
        (c3SecondCall rsqrt w).1.driftDirection = "baseline") := by
  intro h
  exact absurd (h (fun _ => 0) (fun _ => 1) rfl (fun _ => one_pos)) (by decide)

unseal Nat.gcd Rat.add Rat.mul Rat.inv Rat.sub in
/-- C3 amended: only the *first* ever `analyze` call returns the exact
baseline result (the check `len(snapshots) < 2` runs after recording);
the second call with identical inputs takes the full path and returns
consistency 1.0 and drift 0.0 as the claim says, but with drift
direction "stable", trajectory "insufficient_data", stability 1.0, no
anomalies, and one excellent-coherence recommendation instead of the
baseline-established one. -/
theorem baseline_only_first_call_amended (rsqrt : ℚ → ℚ) (w : ℕ → ℚ)
    (h0 : rsqrt 0 = 0) (hw : 0 < w 0) :
    (c3FirstCall rsqrt w).1 =
      createBaselineResult ((c3FirstCall rsqrt w).1.currentSnapshot) ∧
    (c3SecondCall rsqrt w).1.consistencyScore = 1 ∧
    (c3SecondCall rsqrt w).1.driftMagnitude = 0 ∧
    (c3SecondCall rsqrt w).1.driftDirection = "stable" ∧
    (c3SecondCall rsqrt w).1.evolutionTrajectory = "insufficient_data" ∧
    (c3SecondCall rsqrt w).1.stabilityIndex = 1 ∧
    (c3SecondCall rsqrt w).1.anomalousChanges = [] ∧
    (c3SecondCall rsqrt w).1.recommendations =
      ["Excellent temporal coherence - consistent and stable over time"] := by
  have hcall : c3SecondCall rsqrt w =
      analyzeTemporalCoherence rsqrt w c3MidState "hello" c3Scores [] 10 := by
    unfold c3SecondCall
    rw [c3_first_state]
  have hc : calculateConsistency w (c3Snap 1) [c3Snap 0, c3Snap 1] = 1 := by
    show weightedAverage w (List.map (combinedScore (c3Snap 1)) [c3Snap 0]) = 1
    rw [show List.map (combinedScore (c3Snap 1)) [c3Snap 0] = [1] from by decide]
    exact weightedAverage_singleton w 1 hw
  have hd : (analyzeDrift rsqrt (c3Snap 1) [c3Snap 0, c3Snap 1]).1 =
      rsqrt 0 / 5 := rfl
  have hs : calculateStabilityIndex [c3Snap 0, c3Snap 1] = 1 := by decide
  have ha := c3_detect rsqrt h0
  refine ⟨rfl, ?_, ?_, ?_, ?_, ?_, ?_, ?_⟩
  · rw [hcall]
    show pyRound4 (calculateConsistency w (c3Snap 1) [c3Snap 0, c3Snap 1]) = 1
    rw [hc]; decide
  · rw [hcall]
    show pyRound4 ((analyzeDrift rsqrt (c3Snap 1) [c3Snap 0, c3Snap 1]).1) = 0
    rw [hd, h0]; decide
  · rw [hcall]; exact rfl
  · rw [hcall]; exact rfl
  · rw [hcall]
    show pyRound4 (calculateStabilityIndex [c3Snap 0, c3Snap 1]) = 1
    rw [hs]; decide
  · rw [hcall]
    show detectTemporalAnomalies rsqrt (c3Snap 1) [c3Snap 0, c3Snap 1] = []
    exact ha
  · rw [hcall]
    show generateTemporalRecommendations
        (calculateConsistency w (c3Snap 1) [c3Snap 0, c3Snap 1])
        ((analyzeDrift rsqrt (c3Snap 1) [c3Snap 0, c3Snap 1]).1)
        (calculateStabilityIndex [c3Snap 0, c3Snap 1])
        (detectTemporalAnomalies rsqrt (c3Snap 1) [c3Snap 0, c3Snap 1]) =
      ["Excellent temporal coherence - consistent and stable over time"]
    rw [hc, hd, h0, hs, ha]; decide

unseal Nat.gcd Rat.add Rat.mul Rat.inv Rat.sub in
/-- C3 witness: the amended theorem at a concrete square root and a
concrete positive weight function. -/
theorem baseline_only_first_call_witness :
    (c3FirstCall (fun _ => 0) (fun _ => 1)).1 =
      createBaselineResult
        ((c3FirstCall (fun _ => 0) (fun _ => 1)).1.currentSnapshot) ∧
    (c3SecondCall (fun _ => 0) (fun _ => 1)).1.driftDirection = "stable" :=
  ⟨(baseline_only_first_call_amended (fun _ => 0) (fun _ => 1) rfl one_pos).1,
   (baseline_only_first_call_amended (fun _ => 0) (fun _ => 1) rfl
      one_pos).2.2.2.1⟩

/-! ## Claim C6 -/

def c6Scores1 : List (String × ℚ) := [("truth", 4/5), ("lambda", 26/5)]
def c6Scores2 : List (String × ℚ) := [("truth", 17/20), ("lambda", 11/2)]
def c6Scores3 : List (String × ℚ) := [("truth", 1/5), ("lambda", 6/5)]

/-- The three chained `analyze` calls of the C6 scenario (window 10,
truth scores 0.8 / 0.85 / 0.2, lambda 5.2 / 5.5 / 1.2, every other
score key left unspecified and hence defaulting to 0). -/
def c6ThirdCall (rsqrt : ℚ → ℚ) (w : ℕ → ℚ) :
    TemporalAnalysisResult × TrackerState :=
  analyzeTemporalCoherence rsqrt w
    ((analyzeTemporalCoherence rsqrt w
        ((analyzeTemporalCoherence rsqrt w TrackerState.fresh
            "" c6Scores1 [] 10).2)
        "" c6Scores2 [] 10).2)
    "" c6Scores3 [] 10

/-- Tracker state after the first C6 call (parameter-independent, see
`c6_states`). -/
def c6Mid1 : TrackerState :=
  (analyzeTemporalCoherence (fun _ => 0) (fun _ => 1) TrackerState.fresh
    "" c6Scores1 [] 10).2

/-- Tracker state after the second C6 call (parameter-independent, see
`c6_states`). -/
def c6Mid2 : TrackerState :=
  (analyzeTemporalCoherence (fun _ => 0) (fun _ => 1) c6Mid1
    "" c6Scores2 [] 10).2

set_option maxHeartbeats 2000000 in
unseal Nat.gcd Rat.add Rat.mul Rat.inv Rat.sub in
lemma c6_states (rsqrt : ℚ → ℚ) (w : ℕ → ℚ) :
    (analyzeTemporalCoherence rsqrt w TrackerState.fresh
      "" c6Scores1 [] 10).2 = c6Mid1 ∧
    (analyzeTemporalCoherence rsqrt w c6Mid1 "" c6Scores2 [] 10).2 = c6Mid2 :=
  ⟨rfl, rfl⟩

unseal Nat.gcd Rat.add Rat.mul Rat.inv Rat.sub in
/-- C6 counterexample: with the unspecified lie scores defaulting to 0,
the lie delta is 0, so the "toward_deception" rule (which requires lie
delta > 0.1) cannot fire; for every square-root and weight function the
third call's drift direction is not "toward_deception". -/
theorem drift_scenario_direction_cex :
    ¬ (∀ (rsqrt : ℚ → ℚ) (w : ℕ → ℚ), (∀ k, 0 < w k) →
        (c6ThirdCall rsqrt w).1.driftDirection = "toward_deception") := by
  intro h
  exact absurd (h (fun _ => 0) (fun _ => 1) (fun _ => one_pos)) (by decide)

unseal Nat.gcd Rat.add Rat.mul Rat.inv Rat.sub in
/-- C6 amended: in the recorded scenario the truth delta is −0.6 and the
lie delta 0 (defaulted), so the first three direction rules all fail
and the lambda delta −4 < −0.3 labels the drift "descending"; the OLS
slope of the lambda series is −2, so the trajectory is "declining" (one
of the two labels the claim allowed). -/
theorem drift_scenario_descending_declining_amended
    (rsqrt : ℚ → ℚ) (w : ℕ → ℚ) :
    (c6ThirdCall rsqrt w).1.driftDirection = "descending" ∧
    (c6ThirdCall rsqrt w).1.evolutionTrajectory = "declining" := by
  have hcall : c6ThirdCall rsqrt w =
      analyzeTemporalCoherence rsqrt w c6Mid2 "" c6Scores3 [] 10 := by
    unfold c6ThirdCall
    rw [(c6_states rsqrt w).1, (c6_states rsqrt w).2]
  exact ⟨by rw [hcall]; exact rfl, by rw [hcall]; exact rfl⟩

/-! ## Claim C10 -/

/-- First C10 call: empty text, all scores defaulting to 0. -/
def c10FirstCall (rsqrt : ℚ → ℚ) (w : ℕ → ℚ) :
    TemporalAnalysisResult × TrackerState :=
  analyzeTemporalCoherence rsqrt w TrackerState.fresh "" [] [] 10

/-- Second C10 call: identical except that the admissible (per the data
model) out-of-[0,1] lie score 100 is supplied. -/
def c10SecondCall (rsqrt : ℚ → ℚ) (w : ℕ → ℚ) :
    TemporalAnalysisResult × TrackerState :=
  analyzeTemporalCoherence rsqrt w (c10FirstCall rsqrt w).2 "" [("lie", 100)]
    [] 10

/-- Tracker state after the first C10 call (parameter-independent, see
`c10_first_state`). -/
def c10MidState : TrackerState :=
  (analyzeTemporalCoherence (fun _ => 0) (fun _ => 1) TrackerState.fresh
    "" [] [] 10).2

unseal Nat.gcd Rat.add Rat.mul Rat.inv Rat.sub in
lemma c10_first_state (rsqrt : ℚ → ℚ) (w : ℕ → ℚ) :
    (c10FirstCall rsqrt w).2 = c10MidState := rfl

def c10SnapA : TemporalSnapshot :=
  { timestamp := 0, text := "", truthScore := 0, factScore := 0,
    lieScore := 0, coherenceScore := 0, lambdaValue := 0,
    semanticSignature := [], keyThemes := [] }

def c10SnapB : TemporalSnapshot :=
  { timestamp := 1, text := "", truthScore := 0, factScore := 0,
    lieScore := 100, coherenceScore := 0, lambdaValue := 0,
    semanticSignature := [], keyThemes := [] }

unseal Nat.gcd Rat.add Rat.mul Rat.inv Rat.sub in
/-- C10: the consistency score is not confined to [0, 1]: with a prior
lie score 0 and a current lie score 100, the per-snapshot blend term
`1 - |lie delta|` is −99, the pairwise combined score is −19 < 0, and
the recency-weighted average returned as `consistency_score` is −19,
strictly negative — for every positive recency-weight function,
`math.exp` weights included. -/
theorem consistency_can_be_negative (rsqrt : ℚ → ℚ) (w : ℕ → ℚ)
    (hw : 0 < w 0) :
    combinedScore c10SnapB c10SnapA < 0 ∧
    (c10SecondCall rsqrt w).1.consistencyScore < 0 := by
  have hcall : c10SecondCall rsqrt w =
      analyzeTemporalCoherence rsqrt w c10MidState "" [("lie", 100)] [] 10 := by
    unfold c10SecondCall
    rw [c10_first_state]
  have hc : calculateConsistency w c10SnapB [c10SnapA, c10SnapB] = -19 := by
    show weightedAverage w (List.map (combinedScore c10SnapB) [c10SnapA]) = -19
    rw [show List.map (combinedScore c10SnapB) [c10SnapA] = [-19] from by decide]
    exact weightedAverage_singleton w (-19) hw
  refine ⟨by decide, ?_⟩
  rw [hcall]
  show pyRound4 (calculateConsistency w c10SnapB [c10SnapA, c10SnapB]) < 0
  rw [hc]; decide

unseal Nat.gcd Rat.add Rat.mul Rat.inv Rat.sub in
/-- C10 witness: the negativity at a concrete square root and weight
function. -/
theorem consistency_can_be_negative_witness :
    (c10SecondCall (fun _ => 0) (fun _ => 1)).1.consistencyScore < 0 :=
  (consistency_can_be_negative (fun _ => 0) (fun _ => 1) one_pos).2

end Omnissiah
